import Mathlib

/-!
# Verification of the Puppeteer audit service (`/audit` endpoint)

A shallow embedding of the audit server's core: URL validation and
normalization, the SSL-failure latch, SSL status determination, email
extraction (the email regular expression, deduplication, truncation),
load-time rounding, error classification, and the handler's control flow
around the browser-page lifecycle.

Strings are modelled as Lean `String`s with the JavaScript operations
(`trim`, `startsWith`, `includes`, case-insensitive scheme match)
re-implemented over `String.data`.  The browser (an external, fallible
collaborator) is modelled by an oracle record giving the outcome of each
effectful step in program order; `new URL` parsing, an external library
call, is a `String → Bool` parameter.
-/

namespace MarketingAudit

/-- ASCII whitespace removed by JavaScript `String.prototype.trim`
(Unicode-only space characters are not modelled; no claim depends on them). -/
def isJsSpace (c : Char) : Bool :=
  c = ' ' || c = '\t' || c = '\n' || c = '\r' || c = '\x0b' || c = '\x0c'

/-- The trim operation on the character list: drop whitespace at both ends. -/
def trimList (l : List Char) : List Char :=
  ((l.dropWhile isJsSpace).reverse.dropWhile isJsSpace).reverse

/-- JavaScript `url.trim()`. -/
def jsTrim (s : String) : String := ⟨trimList s.data⟩

/-- JavaScript `s.startsWith(p)`. -/
def jsStartsWith (s p : String) : Bool := p.data.isPrefixOf s.data

/-- Contiguous-substring test on character lists, structural in the text. -/
def includesAux (l sub : List Char) : Bool :=
  match l with
  | [] => sub.isEmpty
  | _ :: rest => sub.isPrefixOf l || includesAux rest sub

/-- JavaScript `s.includes(sub)`. -/
def jsIncludes (s sub : String) : Bool := includesAux s.data sub.data

/-- The test `normalizedUrl.match(/^https?:\/\//i)`: after ASCII-lowercasing,
the text starts with `http://` or `https://`. -/
def hasHttpScheme (l : List Char) : Bool :=
  "http://".data.isPrefixOf (l.map Char.toLower) ||
    "https://".data.isPrefixOf (l.map Char.toLower)

/-- Source (server, `/audit` handler):
`let normalizedUrl = url.trim(); if (!normalizedUrl.match(/^https?:\/\//i))
normalizedUrl = "https://" + normalizedUrl;` -/
def normalizedUrl (url : String) : String :=
  let t := jsTrim url
  if hasHttpScheme t.data then t else "https://" ++ t

/-- Outcome of reading `response.securityDetails()`: the call throws, or
returns a value that is or is not `null`. -/
inductive SecRead where
  | throws : SecRead
  | ok (nonNull : Bool) : SecRead
deriving DecidableEq, Repr

/-- Source: the `page.on("requestfailed")` listener assigns
`sslError = request.failure().errorText` whenever that text contains `"SSL"`;
the assignment is unconditional, so a later SSL failure overwrites an earlier
one.  `failures` lists the failed sub-requests' error texts in event order. -/
def latchedSslError (failures : List String) : Option String :=
  failures.foldl (fun acc t => if jsIncludes t "SSL" then some t else acc) none

/-- Source:
`const isSSL = normalizedUrl.startsWith("https://"); let sslStatus = isSSL;
if (isSSL && !sslError) { try { const d = response.securityDetails();
sslStatus = d !== null; } catch (e) { sslStatus = true; } }`.
A `null` navigation response makes `response.securityDetails()` throw, which
the inner catch turns into `true`. -/
def sslStatus (nurl : String) (sslError : Option String) (resp : Option SecRead) : Bool :=
  let isSSL := jsStartsWith nurl "https://"
  if isSSL && sslError.isNone then
    match resp with
    | some (SecRead.ok nonNull) => nonNull
    | some SecRead.throws => true
    | none => true
  else isSSL

/-! ## Email extraction

The regular expression `/[a-zA-Z0-9._%+-]+@[a-zA-Z0-9.-]+\.[a-zA-Z]{2,}/g`
applied by `content.match(...)`, re-implemented with JavaScript match
semantics: scan left to right, at each position take the leftmost-greedy
match (with backtracking over the domain part, since `.` belongs to the
domain character class), and continue after a match's end. -/

/-- Characters of the local part: `[a-zA-Z0-9._%+-]`. -/
def isLocalChar (c : Char) : Bool :=
  c.isAlpha || c.isDigit || c = '.' || c = '_' || c = '%' || c = '+' || c = '-'

/-- Characters of the domain part: `[a-zA-Z0-9.-]`. -/
def isDomainChar (c : Char) : Bool :=
  c.isAlpha || c.isDigit || c = '.' || c = '-'

/-- Length of the maximal `[a-zA-Z]*` run at the front. -/
def alphaRunLen (l : List Char) : Nat := (l.takeWhile Char.isAlpha).length

/-- Backtracking for `[a-zA-Z0-9.-]+\.[a-zA-Z]{2,}` at the front of `l`:
try domain-part lengths from `k` down to `1`; a length `j` succeeds when the
next character is a dot followed by at least two letters (the TLD run is
greedy-maximal).  Returns the total matched length. -/
def domainScan (l : List Char) : Nat → Option Nat
  | 0 => none
  | j + 1 =>
    match l.drop (j + 1) with
    | '.' :: after =>
      let m := alphaRunLen after
      if 2 ≤ m then some ((j + 1) + 1 + m) else domainScan l j
    | _ => domainScan l j

/-- Length of the whole email match at the front of `l`, if any: a nonempty
maximal local-part run, an at-sign, then the domain tail. -/
def matchEmailLen (l : List Char) : Option Nat :=
  let a := (l.takeWhile isLocalChar).length
  if a = 0 then none
  else
    match l.drop a with
    | '@' :: rest =>
      match domainScan rest (rest.takeWhile isDomainChar).length with
      | some d => some (a + 1 + d)
      | none => none
    | _ => none

/-- The global scan of `content.match(emailRegex)`: all non-overlapping
matches in document order.  `fuel` bounds the recursion by the text length. -/
def scanEmails : Nat → List Char → List (List Char)
  | 0, _ => []
  | _ + 1, [] => []
  | fuel + 1, c :: rest =>
    match matchEmailLen (c :: rest) with
    | some len => (c :: rest).take len :: scanEmails fuel ((c :: rest).drop len)
    | none => scanEmails fuel rest

/-- The value of `content.match(emailRegex) || []` as a list of strings. -/
def emailMatches (content : String) : List String :=
  (scanEmails content.data.length content.data).map fun l => ⟨l⟩

/-- JavaScript `[...new Set(xs)]`: deduplication keeping the first occurrence of each
element, in insertion order.  `seen` accumulates the elements already kept. -/
def dedupGo (seen : List String) : List String → List String
  | [] => []
  | x :: xs => if x ∈ seen then dedupGo seen xs else x :: dedupGo (x :: seen) xs

/-- First-seen-order deduplication (JavaScript `Set` iteration order). -/
def dedupKeepFirst (l : List String) : List String := dedupGo [] l

/-- Source: `[...new Set(content.match(emailRegex) || [])].slice(0, 5)`. -/
def extractEmails (content : String) : List String :=
  (dedupKeepFirst (emailMatches content)).take 5

/-! ## Load time -/

/-- JavaScript `x.toFixed(2)` on a non-negative value, over exact rationals: round to
the nearest hundredth (ties upward; the binary-float perturbation of ties is
not modelled). -/
def round2 (q : ℚ) : ℚ := ((Int.floor (q * 100 + 1 / 2) : ℤ) : ℚ) / 100

/-- Source: `parseFloat((loadTime / 1000).toFixed(2))` where
`loadTime = Date.now() - start` is the elapsed navigation time in
milliseconds (elapsed time is modelled as a natural number). -/
def loadTimeSeconds (ms : Nat) : ℚ := round2 ((ms : ℚ) / 1000)

/-! ## Error classification -/

/-- A JavaScript error as the catch block reads it: `error.name` and
`error.message`. -/
structure JsError where
  name : String
  message : String
deriving DecidableEq, Repr

/-- Source (catch block): `errorMessage` starts as the unknown-error text and
is replaced by the first matching clause of the `if`/`else if` chain. -/
def classifyAuditError (e : JsError) : String :=
  if e.name = "TimeoutError" then "Page load timed out after 30 seconds"
  else if jsIncludes e.message "net::ERR_NAME_NOT_RESOLVED" then "Domain does not exist"
  else if jsIncludes e.message "net::ERR_CONNECTION_REFUSED" then "Connection refused by server"
  else if jsIncludes e.message "net::ERR_CERT" then "SSL certificate error"
  else if jsIncludes e.message "net::ERR_BLOCKED_BY_CLIENT" then "Request blocked by client"
  else "Unknown error during audit"

/-- The six caller-facing error messages, in classification precedence order. -/
def auditErrorMessages : List String :=
  ["Page load timed out after 30 seconds", "Domain does not exist",
   "Connection refused by server", "SSL certificate error",
   "Request blocked by client", "Unknown error during audit"]

/-! ## The `/audit` handler

The handler's effectful steps are modelled by an oracle giving each step's
outcome in program order.  A step either returns a value or throws a
JavaScript error. -/

/-- Outcome of one awaited browser-API call. -/
inductive Step (α : Type) where
  | ok (a : α) : Step α
  | err (e : JsError) : Step α
deriving DecidableEq, Repr

/-- Returns `true` when the step returned normally. -/
def Step.isOk {α : Type} : Step α → Bool
  | .ok _ => true
  | .err _ => false

/-- Outcomes of the browser interactions of one `/audit` invocation, in the
order the handler performs them.  `goto`'s value is the navigation response:
`none` for a `null` response, otherwise the behaviour of its
`securityDetails()` read.  `requestFailures` lists the error texts of the
failed sub-requests seen by the `requestfailed` listener, in event order.
`close1` is the outcome of the first `page.close()` call the invocation
makes (wherever it occurs) and `close2` of the second, if one is made. -/
structure Oracle where
  newPage : Step Unit
  setUserAgent : Step Unit
  setRequestInterception : Step Unit
  requestFailures : List String
  goto : Step (Option SecRead)
  elapsedMs : Nat
  content : Step String
  h1Count : Step Nat
  close1 : Step Unit
  close2 : Step Unit
deriving DecidableEq, Repr

/-- The `data` object of a successful audit response. -/
structure AuditData where
  emails : List String
  load_time : ℚ
  ssl : Bool
  h1_count : Nat
deriving DecidableEq, Repr

/-- One `/audit` HTTP response, together with the observable session facts
the claims are about: how many `page.close()` calls were made before
responding and whether a page session was acquired at all. -/
structure HandlerResult where
  status : Nat
  success : Bool
  error : Option String
  data : Option AuditData
  closeCalls : Nat
  sessionAcquired : Bool
deriving DecidableEq, Repr

/-- The request body's `url` field as the validation sees it: absent,
present but not a string, or a string. -/
inductive UrlField where
  | missing : UrlField
  | nonString : UrlField
  | str (s : String) : UrlField
deriving DecidableEq, Repr

/-- A 400 rejection: no browser interaction, no session, no close. -/
def reject400 (msg : String) : HandlerResult :=
  { status := 400, success := false, error := some msg, data := none,
    closeCalls := 0, sessionAcquired := false }

/-- The catch block when `page` is still undefined (session acquisition
itself threw): no close is attempted. -/
def catchNoPage (e : JsError) : HandlerResult :=
  { status := 200, success := false, error := some (classifyAuditError e),
    data := none, closeCalls := 0, sessionAcquired := false }

/-- The catch block when `page` exists: one `page.close()` is attempted
inside `try`/`catch` (its failure is logged, not re-raised), then the
classified error is returned with HTTP 200. -/
def catchWithPage (e : JsError) : HandlerResult :=
  { status := 200, success := false, error := some (classifyAuditError e),
    data := none, closeCalls := 1, sessionAcquired := true }

/-- The `/audit` handler, translated step for step from the source.
`urlParses` stands for `new URL(...)` succeeding.  Note two facts visible in
the translation: validation rejects every falsy `url` (so also the empty
string), and a failure of the success-path `page.close()` falls into the
catch block, which attempts a second close and answers with a classified
error instead of the audit data. -/
def auditHandler (url : UrlField) (urlParses : String → Bool) (o : Oracle) : HandlerResult :=
  match url with
  | .missing => reject400 "URL is required and must be a string"
  | .nonString => reject400 "URL is required and must be a string"
  | .str s =>
    if s = "" then reject400 "URL is required and must be a string"
    else
      let nurl := normalizedUrl s
      if urlParses nurl then
        match o.newPage with
        | .err e => catchNoPage e
        | .ok _ =>
          match o.setUserAgent with
          | .err e => catchWithPage e
          | .ok _ =>
            match o.setRequestInterception with
            | .err e => catchWithPage e
            | .ok _ =>
              match o.goto with
              | .err e => catchWithPage e
              | .ok resp =>
                match o.content with
                | .err e => catchWithPage e
                | .ok markup =>
                  match o.h1Count with
                  | .err e => catchWithPage e
                  | .ok h1s =>
                    match o.close1 with
                    | .err e =>
                      { status := 200, success := false,
                        error := some (classifyAuditError e), data := none,
                        closeCalls := 2, sessionAcquired := true }
                    | .ok _ =>
                      { status := 200, success := true, error := none,
                        data := some
                          { emails := extractEmails markup,
                            load_time := loadTimeSeconds o.elapsedMs,
                            ssl := sslStatus nurl (latchedSslError o.requestFailures) resp,
                            h1_count := h1s },
                        closeCalls := 1, sessionAcquired := true }
      else reject400 "Invalid URL format"

/-- The first error thrown inside the handler's `try` block, if any,
following the order in which the steps run. -/
def firstThrow (o : Oracle) : Option JsError :=
  match o.newPage with
  | .err e => some e
  | .ok _ =>
    match o.setUserAgent with
    | .err e => some e
    | .ok _ =>
      match o.setRequestInterception with
      | .err e => some e
      | .ok _ =>
        match o.goto with
        | .err e => some e
        | .ok _ =>
          match o.content with
          | .err e => some e
          | .ok _ =>
            match o.h1Count with
            | .err e => some e
            | .ok _ =>
              match o.close1 with
              | .err e => some e
              | .ok _ => none

/-- Every step before the success path's `page.close()` returned normally. -/
def reachesClose (o : Oracle) : Bool :=
  o.newPage.isOk && o.setUserAgent.isOk && o.setRequestInterception.isOk &&
    o.goto.isOk && o.content.isOk && o.h1Count.isOk

/-- An oracle whose every step succeeds, with the observable values given. -/
def allOkOracle (rf : List String) (resp : Option SecRead) (ms : Nat)
    (markup : String) (h1s : Nat) : Oracle :=
  { newPage := .ok (), setUserAgent := .ok (), setRequestInterception := .ok (),
    requestFailures := rf, goto := .ok resp, elapsedMs := ms,
    content := .ok markup, h1Count := .ok h1s, close1 := .ok (), close2 := .ok () }

/-- A fully successful baseline run: empty page, instant load. -/
def baseOracle : Oracle := allOkOracle [] (some (SecRead.ok true)) 0 "" 0

/-- A run whose navigation times out (Puppeteer's `TimeoutError`). -/
def timeoutOracle : Oracle :=
  { baseOracle with
    goto := .err { name := "TimeoutError",
                   message := "Navigation timeout of 30000 ms exceeded" } }

/-- A run in which everything succeeds but the success path's `page.close()`
itself throws; the second close attempt (made by the catch block) fails too. -/
def closeFailOracle : Oracle :=
  { baseOracle with
    close1 := .err { name := "Error", message := "Protocol error: Connection closed." },
    close2 := .err { name := "Error", message := "Protocol error: Target closed." } }

/-! ## Helper lemmas on the string primitives -/

theorem dropWhile_dropWhile (p : Char → Bool) (l : List Char) :
    (l.dropWhile p).dropWhile p = l.dropWhile p := by
  induction l with
  | nil => rfl
  | cons c t ih =>
    by_cases h : p c = true
    · simp [List.dropWhile_cons, h, ih]
    · simp [List.dropWhile_cons, h]

theorem head_dropWhile_false (p : Char → Bool) (l : List Char) (c : Char)
    (h : (l.dropWhile p).head? = some c) : p c = false := by
  induction l with
  | nil => simp at h
  | cons a t ih =>
    by_cases ha : p a = true
    · rw [List.dropWhile_cons, if_pos ha] at h
      exact ih h
    · rw [List.dropWhile_cons, if_neg ha] at h
      simp at h
      rw [← h]
      simpa using ha

theorem dropWhile_eq_self (p : Char → Bool) (l : List Char)
    (h : ∀ c, l.head? = some c → p c = false) : l.dropWhile p = l := by
  cases l with
  | nil => rfl
  | cons a t =>
    have := h a rfl
    simp [List.dropWhile_cons, this]

theorem dropWhile_isSuffix (p : Char → Bool) (l : List Char) :
    l.dropWhile p <:+ l := by
  induction l with
  | nil => simp
  | cons a t ih =>
    by_cases h : p a = true
    · rw [List.dropWhile_cons, if_pos h]
      exact ih.trans (List.suffix_cons a t)
    · rw [List.dropWhile_cons, if_neg h]

theorem isPrefixOf_append_self (l m : List Char) : l.isPrefixOf (l ++ m) = true := by
  induction l with
  | nil => simp [List.isPrefixOf]
  | cons c t ih => simp [List.isPrefixOf, ih]

theorem stringDataExt (a b : String) (h : a.data = b.data) : a = b := by
  cases a; cases b
  simp only [String.data] at h
  rw [h]

theorem trimList_reverse (l : List Char) :
    (trimList l).reverse = (l.dropWhile isJsSpace).reverse.dropWhile isJsSpace := by
  simp [trimList]

theorem trimList_head (l : List Char) (c : Char)
    (h : (trimList l).head? = some c) : isJsSpace c = false := by
  have hsuf : (trimList l).reverse <:+ (l.dropWhile isJsSpace).reverse := by
    rw [trimList_reverse]
    exact dropWhile_isSuffix isJsSpace _
  have hpre : trimList l <+: l.dropWhile isJsSpace := List.reverse_suffix.mp hsuf
  obtain ⟨r, hr⟩ := hpre
  cases ht : trimList l with
  | nil => rw [ht] at h; simp at h
  | cons a t =>
    rw [ht] at h
    simp at h
    rw [ht] at hr
    have hd : (l.dropWhile isJsSpace).head? = some a := by
      rw [← hr]; rfl
    rw [← h]
    exact head_dropWhile_false isJsSpace l a hd

theorem trimList_trimList (l : List Char) : trimList (trimList l) = trimList l := by
  have h1 : (trimList l).dropWhile isJsSpace = trimList l :=
    dropWhile_eq_self _ _ (trimList_head l)
  have h2 : (trimList l).reverse.dropWhile isJsSpace = (trimList l).reverse := by
    rw [trimList_reverse]
    exact dropWhile_dropWhile isJsSpace _
  calc trimList (trimList l)
      = (((trimList l).dropWhile isJsSpace).reverse.dropWhile isJsSpace).reverse := rfl
    _ = ((trimList l).reverse.dropWhile isJsSpace).reverse := by rw [h1]
    _ = (trimList l).reverse.reverse := by rw [h2]
    _ = trimList l := List.reverse_reverse _

theorem trimList_append_trimmed (l : List Char) :
    trimList ("https://".data ++ trimList l) = "https://".data ++ trimList l := by
  have h1 : ("https://".data ++ trimList l).dropWhile isJsSpace
      = "https://".data ++ trimList l := by
    show ('h' :: ("ttps://".data ++ trimList l)).dropWhile isJsSpace = _
    rw [List.dropWhile_cons, if_neg (by decide)]
    rfl
  have h2 : ("https://".data ++ trimList l).reverse.dropWhile isJsSpace
      = ("https://".data ++ trimList l).reverse := by
    rw [List.reverse_append]
    cases htr : (trimList l).reverse with
    | nil => decide
    | cons a tr =>
      have hdl : ((l.dropWhile isJsSpace).reverse.dropWhile isJsSpace).head? = some a := by
        rw [← trimList_reverse, htr]; rfl
      have ha : isJsSpace a = false :=
        head_dropWhile_false isJsSpace (l.dropWhile isJsSpace).reverse a hdl
      show ((a :: tr) ++ "https://".data.reverse).dropWhile isJsSpace = _
      rw [List.cons_append, List.dropWhile_cons, if_neg (by simp [ha])]
  calc trimList ("https://".data ++ trimList l)
      = ((("https://".data ++ trimList l).dropWhile isJsSpace).reverse.dropWhile
          isJsSpace).reverse := rfl
    _ = (("https://".data ++ trimList l).reverse.dropWhile isJsSpace).reverse := by rw [h1]
    _ = ("https://".data ++ trimList l).reverse.reverse := by rw [h2]
    _ = "https://".data ++ trimList l := List.reverse_reverse _

theorem hasHttpScheme_append (t : List Char) :
    hasHttpScheme ("https://".data ++ t) = true := by
  unfold hasHttpScheme
  rw [List.map_append]
  have hmap : "https://".data.map Char.toLower = "https://".data := by decide
  rw [hmap, isPrefixOf_append_self]
  simp

theorem dedupGo_not_mem (l : List String) :
    ∀ (seen : List String) (x : String), x ∈ dedupGo seen l → x ∉ seen := by
  induction l with
  | nil => intro seen x hx; simp [dedupGo] at hx
  | cons a t ih =>
    intro seen x hx
    by_cases ha : a ∈ seen
    · rw [show dedupGo seen (a :: t) = dedupGo seen t from by simp [dedupGo, ha]] at hx
      exact ih seen x hx
    · rw [show dedupGo seen (a :: t) = a :: dedupGo (a :: seen) t from by
        simp [dedupGo, ha]] at hx
      rcases List.mem_cons.mp hx with h | h
      · subst h; exact ha
      · intro hxs
        exact ih (a :: seen) x h (List.mem_cons_of_mem a hxs)

theorem dedupGo_nodup (l : List String) : ∀ seen : List String, (dedupGo seen l).Nodup := by
  induction l with
  | nil => intro seen; simp [dedupGo]
  | cons a t ih =>
    intro seen
    by_cases ha : a ∈ seen
    · simpa [dedupGo, ha] using ih seen
    · rw [show dedupGo seen (a :: t) = a :: dedupGo (a :: seen) t from by
        simp [dedupGo, ha]]
      rw [List.nodup_cons]
      refine ⟨?_, ih (a :: seen)⟩
      intro hmem
      exact dedupGo_not_mem t (a :: seen) a hmem (List.mem_cons_self a seen)

theorem dedupGo_sublist (l : List String) :
    ∀ seen : List String, List.Sublist (dedupGo seen l) l := by
  induction l with
  | nil => intro seen; simp [dedupGo]
  | cons a t ih =>
    intro seen
    by_cases ha : a ∈ seen
    · rw [show dedupGo seen (a :: t) = dedupGo seen t from by simp [dedupGo, ha]]
      exact (ih seen).trans (List.sublist_cons_self a t)
    · rw [show dedupGo seen (a :: t) = a :: dedupGo (a :: seen) t from by
        simp [dedupGo, ha]]
      exact List.Sublist.cons₂ a (ih (a :: seen))

theorem auditHandler_allOk (s : String) (p : String → Bool) (rf : List String)
    (resp : Option SecRead) (ms : Nat) (mk : String) (h1s : Nat)
    (hs : ¬ s = "") (hp : p (normalizedUrl s) = true) :
    auditHandler (.str s) p (allOkOracle rf resp ms mk h1s) =
      { status := 200, success := true, error := none,
        data := some { emails := extractEmails mk, load_time := loadTimeSeconds ms,
                       ssl := sslStatus (normalizedUrl s) (latchedSslError rf) resp,
                       h1_count := h1s },
        closeCalls := 1, sessionAcquired := true } := by
  simp only [auditHandler, allOkOracle]
  rw [if_neg hs, if_pos hp]

/-! ## The claims -/

/-- C6: URL normalization trims the input and, exactly when the trimmed
string lacks a case-insensitive `http://`/`https://` scheme, prepends
`https://`; it is idempotent; `"http://x.com"` is left unchanged and
`"example.com"` becomes `"https://example.com"`. -/
theorem c6_normalization_idempotent :
    (∀ s, normalizedUrl (normalizedUrl s) = normalizedUrl s) ∧
    normalizedUrl "http://x.com" = "http://x.com" ∧
    normalizedUrl "example.com" = "https://example.com" ∧
    (∀ s, normalizedUrl s =
      if hasHttpScheme (jsTrim s).data then jsTrim s else "https://" ++ jsTrim s) := by
  refine ⟨?_, by decide, by decide, fun s => rfl⟩
  intro s
  by_cases h : hasHttpScheme (jsTrim s).data = true
  · have e1 : normalizedUrl s = jsTrim s := by simp [normalizedUrl, h]
    have e2 : jsTrim (jsTrim s) = jsTrim s := by
      apply stringDataExt
      exact trimList_trimList s.data
    rw [e1]
    simp only [normalizedUrl, e2]
    rw [if_pos h]
  · have e1 : normalizedUrl s = "https://" ++ jsTrim s := by simp [normalizedUrl, h]
    have hdata : ("https://" ++ jsTrim s).data = "https://".data ++ trimList s.data := by
      rw [String.data_append]; rfl
    have e2 : jsTrim ("https://" ++ jsTrim s) = "https://" ++ jsTrim s := by
      apply stringDataExt
      show trimList ("https://" ++ jsTrim s).data = ("https://" ++ jsTrim s).data
      rw [hdata]
      exact trimList_append_trimmed s.data
    rw [e1]
    simp only [normalizedUrl, e2]
    rw [if_pos (by rw [hdata]; exact hasHttpScheme_append _)]

/-- C7: the emails field is the email-pattern matches of the markup,
deduplicated preserving first-seen document order (so a sublist of the match
list, with no duplicates) and truncated to at most 5 entries; the two
spec examples compute as stated. -/
theorem c7_email_extraction :
    (∀ c, extractEmails c = (dedupKeepFirst (emailMatches c)).take 5) ∧
    (∀ c, (extractEmails c).length ≤ 5) ∧
    (∀ c, (extractEmails c).Nodup) ∧
    (∀ c, List.Sublist (extractEmails c) (emailMatches c)) ∧
    emailMatches "a@b.com, a@b.com, c@d.org" = ["a@b.com", "a@b.com", "c@d.org"] ∧
    extractEmails "a@b.com, a@b.com, c@d.org" = ["a@b.com", "c@d.org"] ∧
    extractEmails "e1@a.com e2@a.com e3@a.com e4@a.com e5@a.com e6@a.com e7@a.com"
      = ["e1@a.com", "e2@a.com", "e3@a.com", "e4@a.com", "e5@a.com"] := by
  refine ⟨fun c => rfl, fun c => List.length_take_le 5 _, fun c => ?_, fun c => ?_,
    by decide, by decide, by decide⟩
  · exact List.Nodup.sublist (List.take_sublist 5 _) (dedupGo_nodup _ [])
  · exact (List.take_sublist 5 _).trans (dedupGo_sublist _ [])

/-- C4 (amended): the session-scoped sslFailureSignal keeps the error text of
the LAST failed sub-request containing "SSL": a new failure containing "SSL"
overwrites the latched value, one without "SSL" leaves it unchanged, and the
signal starts out unlatched. -/
theorem c4_ssl_latch_last_wins (failures : List String) (t : String) :
    latchedSslError (failures ++ [t])
      = (if jsIncludes t "SSL" then some t else latchedSslError failures) ∧
    latchedSslError ([] : List String) = none := by
  constructor
  · simp [latchedSslError, List.foldl_append]
  · rfl

/-- C4 counterexample: with two SSL sub-request failures in one session, the
latched signal is the text of the SECOND failure, not of the first as the
claim states. -/
theorem c4_counterexample_first_does_not_win :
    latchedSslError ["net::ERR_SSL_PROTOCOL_ERROR one", "net::ERR_SSL_PROTOCOL_ERROR two"]
      = some "net::ERR_SSL_PROTOCOL_ERROR two" ∧
    latchedSslError ["net::ERR_SSL_PROTOCOL_ERROR one", "net::ERR_SSL_PROTOCOL_ERROR two"]
      ≠ some "net::ERR_SSL_PROTOCOL_ERROR one" := by
  constructor
  · decide
  · decide

/-- C9: the empty string is a string, yet the presence check `!url` rejects
it with the required-and-string message, not with the invalid-format one;
missing and non-string url values get the same message. -/
theorem c9_empty_string_url (p : String → Bool) (o : Oracle) :
    auditHandler (.str "") p o = reject400 "URL is required and must be a string" ∧
    (auditHandler (.str "") p o).error ≠ some "Invalid URL format" ∧
    auditHandler .missing p o = reject400 "URL is required and must be a string" ∧
    auditHandler .nonString p o = reject400 "URL is required and must be a string" := by
  have h : auditHandler (.str "") p o = reject400 "URL is required and must be a string" := rfl
  refine ⟨h, ?_, rfl, rfl⟩
  rw [h]
  decide

/-- C10: normalization leaves `HTTPS://example.com` unchanged (the scheme
match is case-insensitive), but the SSL check uses case-sensitive
`startsWith("https://")`, so isSSL is false: the audit reports ssl as false
whatever the latched signal and security-details read would say, and the
details check is skipped. -/
theorem c10_uppercase_scheme_ssl_false (e : Option String) (r : Option SecRead)
    (rf : List String) (resp : Option SecRead) (ms : Nat) (mk : String) (h1s : Nat) :
    normalizedUrl "HTTPS://example.com" = "HTTPS://example.com" ∧
    jsStartsWith (normalizedUrl "HTTPS://example.com") "https://" = false ∧
    sslStatus (normalizedUrl "HTTPS://example.com") e r = false ∧
    (auditHandler (.str "HTTPS://example.com") (fun _ => true)
        (allOkOracle rf resp ms mk h1s)).data
      = some { emails := extractEmails mk, load_time := loadTimeSeconds ms,
               ssl := false, h1_count := h1s } := by
  have hn : normalizedUrl "HTTPS://example.com" = "HTTPS://example.com" := by decide
  have hsw : jsStartsWith "HTTPS://example.com" "https://" = false := by decide
  have hssl : ∀ (e : Option String) (r : Option SecRead),
      sslStatus (normalizedUrl "HTTPS://example.com") e r = false := by
    intro e r
    rw [hn]
    simp [sslStatus, hsw]
  refine ⟨hn, by rw [hn]; exact hsw, hssl e r, ?_⟩
  have hh := auditHandler_allOk "HTTPS://example.com" (fun _ => true) rf resp ms mk h1s
    (by decide) rfl
  rw [hh, hssl (latchedSslError rf) resp]

/-- C8: for every successful audit, load_time is the elapsed navigation time
in milliseconds divided by 1000 and rounded to 2 decimal places (an integer
number of hundredths within half a hundredth of the exact value), and it is
never negative. -/
theorem c8_load_time_rounding (ms : Nat) (rf : List String) (resp : Option SecRead)
    (mk : String) (h1s : Nat) :
    0 ≤ loadTimeSeconds ms ∧
    (∃ n : ℤ, loadTimeSeconds ms = (n : ℚ) / 100) ∧
    |loadTimeSeconds ms - (ms : ℚ) / 1000| ≤ 1 / 200 ∧
    (auditHandler (.str "example.com") (fun _ => true) (allOkOracle rf resp ms mk h1s)).data
      = some { emails := extractEmails mk, load_time := loadTimeSeconds ms,
               ssl := sslStatus (normalizedUrl "example.com") (latchedSslError rf) resp,
               h1_count := h1s } := by
  refine ⟨?_, ⟨Int.floor (((ms : ℚ) / 1000) * 100 + 1 / 2), rfl⟩, ?_, ?_⟩
  · have hq : (0 : ℚ) ≤ (ms : ℚ) / 1000 := by positivity
    have hf : (0 : ℤ) ≤ Int.floor (((ms : ℚ) / 1000) * 100 + 1 / 2) :=
      Int.floor_nonneg.mpr (by linarith)
    have : (0 : ℚ) ≤ ((Int.floor (((ms : ℚ) / 1000) * 100 + 1 / 2) : ℤ) : ℚ) := by
      exact_mod_cast hf
    unfold loadTimeSeconds round2
    positivity
  · have h1 : ((Int.floor (((ms : ℚ) / 1000) * 100 + 1 / 2) : ℤ) : ℚ)
        ≤ ((ms : ℚ) / 1000) * 100 + 1 / 2 := Int.floor_le _
    have h2 : ((ms : ℚ) / 1000) * 100 + 1 / 2
        < ((Int.floor (((ms : ℚ) / 1000) * 100 + 1 / 2) : ℤ) : ℚ) + 1 :=
      Int.lt_floor_add_one _
    unfold loadTimeSeconds round2
    rw [abs_le]
    constructor <;> linarith
  · rw [auditHandler_allOk "example.com" (fun _ => true) rf resp ms mk h1s (by decide) rfl]

/-- C2: in a successful audit, the ssl field is false for every normalized
URL not starting with (case-sensitive) "https://" irrespective of the latch
and of the security-details read; for an https URL with no latched
sslFailureSignal it is true exactly when the security-details read returns a
non-null value, and true when that read throws (also for a null response);
for an https URL with a latched signal it stays true: the latch alone never
flips it to false. -/
theorem c2_ssl_determination (s : String) (p : String → Bool) (rf : List String)
    (resp : Option SecRead) (ms : Nat) (mk : String) (h1s : Nat)
    (hs : ¬ s = "") (hp : p (normalizedUrl s) = true) :
    (auditHandler (.str s) p (allOkOracle rf resp ms mk h1s)).data
      = some { emails := extractEmails mk, load_time := loadTimeSeconds ms,
               ssl := sslStatus (normalizedUrl s) (latchedSslError rf) resp,
               h1_count := h1s } ∧
    (jsStartsWith (normalizedUrl s) "https://" = false →
      ∀ (err : Option String) (r : Option SecRead), sslStatus (normalizedUrl s) err r = false) ∧
    (jsStartsWith (normalizedUrl s) "https://" = true →
      sslStatus (normalizedUrl s) none (some (SecRead.ok true)) = true ∧
      sslStatus (normalizedUrl s) none (some (SecRead.ok false)) = false ∧
      sslStatus (normalizedUrl s) none (some SecRead.throws) = true ∧
      sslStatus (normalizedUrl s) none none = true ∧
      ∀ (e : String) (r : Option SecRead), sslStatus (normalizedUrl s) (some e) r = true) := by
  refine ⟨?_, ?_, ?_⟩
  · rw [auditHandler_allOk s p rf resp ms mk h1s hs hp]
  · intro hsw err r
    simp [sslStatus, hsw]
  · intro hsw
    refine ⟨by simp [sslStatus, hsw], by simp [sslStatus, hsw], by simp [sslStatus, hsw],
      by simp [sslStatus, hsw], fun e r => by simp [sslStatus, hsw]⟩

/-- C2 witness: the determination evaluated at a concrete https input. -/
theorem c2_ssl_determination_witness :
    (auditHandler (.str "https://x.com") (fun _ => true)
        (allOkOracle [] (some (SecRead.ok true)) 0 "" 0)).data
      = some { emails := extractEmails "", load_time := loadTimeSeconds 0,
               ssl := sslStatus (normalizedUrl "https://x.com") (latchedSslError [])
                        (some (SecRead.ok true)),
               h1_count := 0 } ∧
    (jsStartsWith (normalizedUrl "https://x.com") "https://" = false →
      ∀ (err : Option String) (r : Option SecRead),
        sslStatus (normalizedUrl "https://x.com") err r = false) ∧
    (jsStartsWith (normalizedUrl "https://x.com") "https://" = true →
      sslStatus (normalizedUrl "https://x.com") none (some (SecRead.ok true)) = true ∧
      sslStatus (normalizedUrl "https://x.com") none (some (SecRead.ok false)) = false ∧
      sslStatus (normalizedUrl "https://x.com") none (some SecRead.throws) = true ∧
      sslStatus (normalizedUrl "https://x.com") none none = true ∧
      ∀ (e : String) (r : Option SecRead),
        sslStatus (normalizedUrl "https://x.com") (some e) r = true) :=
  c2_ssl_determination "https://x.com" (fun _ => true) [] (some (SecRead.ok true)) 0 "" 0
    (by decide) rfl

/-- C1: every error thrown during or after page acquisition yields HTTP 200
with success false and an error string equal to the classification of the
thrown error, which is one of the six fixed messages, chosen by the stated
precedence (timeout name first, then the four network codes by substring,
else the unknown-error text). -/
theorem c1_error_classification (s : String) (p : String → Bool) (o : Oracle) (e : JsError)
    (hs : ¬ s = "") (hp : p (normalizedUrl s) = true) (ht : firstThrow o = some e) :
    (auditHandler (.str s) p o).status = 200 ∧
    (auditHandler (.str s) p o).success = false ∧
    (auditHandler (.str s) p o).error = some (classifyAuditError e) ∧
    classifyAuditError e ∈ auditErrorMessages ∧
    (e.name = "TimeoutError" →
      classifyAuditError e = "Page load timed out after 30 seconds") ∧
    (¬ e.name = "TimeoutError" →
      jsIncludes e.message "net::ERR_NAME_NOT_RESOLVED" = true →
      classifyAuditError e = "Domain does not exist") ∧
    (¬ e.name = "TimeoutError" →
      jsIncludes e.message "net::ERR_NAME_NOT_RESOLVED" = false →
      jsIncludes e.message "net::ERR_CONNECTION_REFUSED" = true →
      classifyAuditError e = "Connection refused by server") ∧
    (¬ e.name = "TimeoutError" →
      jsIncludes e.message "net::ERR_NAME_NOT_RESOLVED" = false →
      jsIncludes e.message "net::ERR_CONNECTION_REFUSED" = false →
      jsIncludes e.message "net::ERR_CERT" = true →
      classifyAuditError e = "SSL certificate error") ∧
    (¬ e.name = "TimeoutError" →
      jsIncludes e.message "net::ERR_NAME_NOT_RESOLVED" = false →
      jsIncludes e.message "net::ERR_CONNECTION_REFUSED" = false →
      jsIncludes e.message "net::ERR_CERT" = false →
      jsIncludes e.message "net::ERR_BLOCKED_BY_CLIENT" = true →
      classifyAuditError e = "Request blocked by client") ∧
    (¬ e.name = "TimeoutError" →
      jsIncludes e.message "net::ERR_NAME_NOT_RESOLVED" = false →
      jsIncludes e.message "net::ERR_CONNECTION_REFUSED" = false →
      jsIncludes e.message "net::ERR_CERT" = false →
      jsIncludes e.message "net::ERR_BLOCKED_BY_CLIENT" = false →
      classifyAuditError e = "Unknown error during audit") := by
  have hresp : (auditHandler (.str s) p o).status = 200 ∧
      (auditHandler (.str s) p o).success = false ∧
      (auditHandler (.str s) p o).error = some (classifyAuditError e) := by
    obtain ⟨np, ua, ri, rf, gt, ms, ct, h1, cl1, cl2⟩ := o
    simp only [firstThrow] at ht
    simp only [auditHandler]
    rw [if_neg hs, if_pos hp]
    cases np <;> cases ua <;> cases ri <;> cases gt <;> cases ct <;> cases h1 <;> cases cl1 <;>
      simp_all [catchNoPage, catchWithPage]
  have hmem : classifyAuditError e ∈ auditErrorMessages := by
    unfold classifyAuditError auditErrorMessages
    split_ifs <;> simp
  refine ⟨hresp.1, hresp.2.1, hresp.2.2, hmem, ?_, ?_, ?_, ?_, ?_, ?_⟩
  · intro h1; simp [classifyAuditError, h1]
  · intro h1 h2; simp [classifyAuditError, h1, h2]
  · intro h1 h2 h3; simp [classifyAuditError, h1, h2, h3]
  · intro h1 h2 h3 h4; simp [classifyAuditError, h1, h2, h3, h4]
  · intro h1 h2 h3 h4 h5; simp [classifyAuditError, h1, h2, h3, h4, h5]
  · intro h1 h2 h3 h4 h5; simp [classifyAuditError, h1, h2, h3, h4, h5]

/-- C1 witness: a timed-out navigation answers 200 with the timeout text. -/
theorem c1_error_classification_witness :
    (auditHandler (.str "example.com") (fun _ => true) timeoutOracle).status = 200 ∧
    (auditHandler (.str "example.com") (fun _ => true) timeoutOracle).success = false ∧
    (auditHandler (.str "example.com") (fun _ => true) timeoutOracle).error
      = some "Page load timed out after 30 seconds" := by
  have h := c1_error_classification "example.com" (fun _ => true) timeoutOracle
    { name := "TimeoutError", message := "Navigation timeout of 30000 ms exceeded" }
    (by decide) rfl rfl
  exact ⟨h.1, h.2.1, by rw [h.2.2.1, h.2.2.2.2.1 rfl]⟩

/-- C3 (amended): every invocation that acquires a page session attempts
between one and two closes before returning; it attempts exactly two
precisely when every step up to the success path's close succeeded and that
close itself failed — the close error then propagates to the catch handler,
which closes again and answers with a classified error instead of the audit
result — and the outcome of the catch-path close never changes the
response. -/
theorem c3_close_attempts (u : UrlField) (p : String → Bool) (o : Oracle)
    (h : (auditHandler u p o).sessionAcquired = true) :
    1 ≤ (auditHandler u p o).closeCalls ∧
    (auditHandler u p o).closeCalls ≤ 2 ∧
    ((auditHandler u p o).closeCalls = 2 ↔
      reachesClose o = true ∧ o.close1.isOk = false) ∧
    (∀ c2, auditHandler u p { o with close2 := c2 } = auditHandler u p o) := by
  obtain ⟨np, ua, ri, rf, gt, ms, ct, h1, cl1, cl2⟩ := o
  cases u with
  | missing => simp [auditHandler, reject400] at h
  | nonString => simp [auditHandler, reject400] at h
  | str s =>
    by_cases hs : s = ""
    · simp [auditHandler, hs, reject400] at h
    · by_cases hp : p (normalizedUrl s) = true
      · simp only [auditHandler] at h ⊢
        rw [if_neg hs, if_pos hp] at h
        rw [if_neg hs, if_pos hp]
        cases np <;> cases ua <;> cases ri <;> cases gt <;> cases ct <;> cases h1 <;>
          cases cl1 <;>
          simp_all [catchNoPage, catchWithPage, reachesClose, Step.isOk]
      · rw [show auditHandler (.str s) p ⟨np, ua, ri, rf, gt, ms, ct, h1, cl1, cl2⟩
            = reject400 "Invalid URL format" from by
          simp only [auditHandler]; rw [if_neg hs, if_neg hp]] at h
        simp [reject400] at h

/-- C3 witness: the baseline successful run closes exactly once. -/
theorem c3_close_attempts_witness :
    1 ≤ (auditHandler (.str "example.com") (fun _ => true) baseOracle).closeCalls ∧
    (auditHandler (.str "example.com") (fun _ => true) baseOracle).closeCalls ≤ 2 ∧
    ((auditHandler (.str "example.com") (fun _ => true) baseOracle).closeCalls = 2 ↔
      reachesClose baseOracle = true ∧ baseOracle.close1.isOk = false) ∧
    (∀ c2, auditHandler (.str "example.com") (fun _ => true) { baseOracle with close2 := c2 }
      = auditHandler (.str "example.com") (fun _ => true) baseOracle) :=
  c3_close_attempts (.str "example.com") (fun _ => true) baseOracle rfl

/-- C3 counterexample: when the success path's own close fails, the handler
makes a second close attempt and returns a classified error, so the session
is NOT closed exactly once with the close failure merely logged. -/
theorem c3_counterexample_double_close :
    (auditHandler (.str "example.com") (fun _ => true) closeFailOracle).sessionAcquired
      = true ∧
    (auditHandler (.str "example.com") (fun _ => true) closeFailOracle).closeCalls = 2 ∧
    (auditHandler (.str "example.com") (fun _ => true) closeFailOracle).success = false ∧
    (auditHandler (.str "example.com") (fun _ => true) closeFailOracle).error
      = some "Unknown error during audit" := by
  refine ⟨rfl, rfl, rfl, ?_⟩
  decide

/-- C5 (amended): a missing or non-string url is rejected 400 with the
required-and-string message; a NONEMPTY string url whose normalized form
fails URL parsing is rejected 400 with the invalid-format message; in both
cases no page session is acquired, no close happens, and the response does
not depend on the browser oracle.  (The empty string — a string whose
normalized form "https://" also fails parsing — is instead caught by the
presence check and gets the required-and-string message.) -/
theorem c5_input_validation (s : String) (p : String → Bool) (o : Oracle)
    (hs : ¬ s = "") (hp : p (normalizedUrl s) = false) :
    auditHandler (.str s) p o = reject400 "Invalid URL format" ∧
    (auditHandler (.str s) p o).status = 400 ∧
    (auditHandler (.str s) p o).sessionAcquired = false ∧
    (auditHandler (.str s) p o).closeCalls = 0 ∧
    (∀ (p2 : String → Bool) (o2 : Oracle),
      auditHandler .missing p2 o2 = reject400 "URL is required and must be a string" ∧
      auditHandler .nonString p2 o2 = reject400 "URL is required and must be a string") ∧
    (∀ o2 : Oracle, auditHandler (.str s) p o2 = auditHandler (.str s) p o) := by
  have h1 : ∀ o2 : Oracle, auditHandler (.str s) p o2 = reject400 "Invalid URL format" := by
    intro o2
    simp only [auditHandler]
    rw [if_neg hs, if_neg (by simp [hp])]
  refine ⟨h1 o, by rw [h1 o]; rfl, by rw [h1 o]; rfl, by rw [h1 o]; rfl,
    fun p2 o2 => ⟨rfl, rfl⟩, fun o2 => by rw [h1 o2, h1 o]⟩

/-- C5 witness: a nonempty unparsable url is rejected as invalid format. -/
theorem c5_input_validation_witness :
    auditHandler (.str "ht tp://bad url") (fun _ => false) baseOracle
      = reject400 "Invalid URL format" ∧
    (auditHandler (.str "ht tp://bad url") (fun _ => false) baseOracle).status = 400 ∧
    (auditHandler (.str "ht tp://bad url") (fun _ => false) baseOracle).sessionAcquired
      = false ∧
    (auditHandler (.str "ht tp://bad url") (fun _ => false) baseOracle).closeCalls = 0 ∧
    (∀ (p2 : String → Bool) (o2 : Oracle),
      auditHandler .missing p2 o2 = reject400 "URL is required and must be a string" ∧
      auditHandler .nonString p2 o2 = reject400 "URL is required and must be a string") ∧
    (∀ o2 : Oracle, auditHandler (.str "ht tp://bad url") (fun _ => false) o2
      = auditHandler (.str "ht tp://bad url") (fun _ => false) baseOracle) :=
  c5_input_validation "ht tp://bad url" (fun _ => false) baseOracle (by decide) rfl

/-- C5 counterexample: the empty string IS a string and (for the parse
behaviour of new URL, which rejects "https://") its normalized form fails
parsing, yet the endpoint answers with the required-and-string message, not
with "Invalid URL format". -/
theorem c5_counterexample_empty_string :
    ((fun u => !(u == "https://")) (normalizedUrl "") = false) ∧
    (auditHandler (.str "") (fun u => !(u == "https://")) baseOracle).status = 400 ∧
    (auditHandler (.str "") (fun u => !(u == "https://")) baseOracle).error
      = some "URL is required and must be a string" ∧
    (auditHandler (.str "") (fun u => !(u == "https://")) baseOracle).error
      ≠ some "Invalid URL format" := by
  refine ⟨by decide, rfl, rfl, by decide⟩

end MarketingAudit
